import Mathlib

/-!
Verification of the articulated joint-pose estimation utilities of the
repository (rfvision/models/pose_estimators/articulation/models/utils.py).

Point sets of length n, i.e. numpy arrays of shape (n, 3), are modelled as
functions Fin n → Fin 3 → ℝ (row index first).  float64 arithmetic is
modelled by real arithmetic; the exact count ratios that appear as RANSAC
scores are modelled by rationals.  numpy's SVD is an external library call
and enters only through its contract (orthogonal factors).
-/

namespace RfVision

noncomputable section

/-- Points and rotation vectors: numpy rows of shape (3,). -/
abbrev V3 : Type := Fin 3 → ℝ

/-- A 3 x 3 real matrix. -/
abbrev M3 : Type := Matrix (Fin 3) (Fin 3) ℝ

/-- Per-column mean subtraction, pts - np.mean(pts, 0, keepdims=True):
the pre-centering step of rotate_pts (utils.py lines 44-45). -/
def center {n : ℕ} (pts : Fin n → V3) : Fin n → V3 :=
  fun i j => pts i j - (∑ k, pts k j) / n

/-- Cross covariance M = np.matmul(target.T, source) of the centered point
sets (utils.py line 46). -/
def crossCov {n : ℕ} (source target : Fin n → V3) : M3 :=
  Matrix.of fun a b => ∑ i, center target i a * center source i b

/-- The column flip U[:, -1] = -U[:, -1] of rotate_pts (utils.py line 51). -/
def negLastCol (U : M3) : M3 :=
  Matrix.of fun i j => if j = 2 then -U i j else U i j

/-- Column signs realising negLastCol as a right multiplication by a
diagonal matrix. -/
def flipSign : Fin 3 → ℝ := fun j => if j = 2 then -1 else 1

/-- Formation of the rotation returned by rotate_pts (utils.py lines 47-53)
from the factors U, D, Vh that numpy's SVD returns on the cross covariance:
when det(U) * det(Vh) < 0 the source negates the last singular value D[-1]
(which does not enter the returned product R = U @ Vh) and the last column
of U, and in both cases returns R = U @ Vh. -/
def rotate_pts_svd (U : M3) (D : Fin 3 → ℝ) (Vh : M3) : M3 :=
  if U.det * Vh.det < 0 then negLastCol U * Vh else U * Vh

/-- Flattened pairwise Euclidean distance table of a point set,
np.sqrt(np.sum(pdist**2, 2)).reshape(-1) (utils.py lines 58-61). -/
def pdist_flat {n : ℕ} (pts : Fin n → V3) : Fin n × Fin n → ℝ :=
  fun p => Real.sqrt (∑ j, (pts p.1 j - pts p.2 j) ^ 2)

/-- scale_pts (utils.py lines 56-63): np.dot(A, b) / (np.dot(A, A) + 1e-6)
on the flattened pairwise distances; 1e-6 is written 1 / 1000000. -/
def scale_pts {n : ℕ} (source target : Fin n → V3) : ℝ :=
  (∑ p : Fin n × Fin n, pdist_flat source p * pdist_flat target p) /
    ((∑ p : Fin n × Fin n, pdist_flat source p * pdist_flat source p) + 1 / 1000000)

/-- numpy float modulo a % b, which for our use (b = 2 * pi > 0) is
a - b * floor (a / b). -/
def npMod (a b : ℝ) : ℝ := a - b * (Int.floor (a / b) : ℝ)

/-- rot_diff_rad (utils.py lines 66-67):
np.arccos((np.trace(rot1 @ rot2.T) - 1) / 2) % (2 * np.pi). -/
def rot_diff_rad (rot1 rot2 : M3) : ℝ :=
  npMod (Real.arccos ((Matrix.trace (rot1 * rot2.transpose) - 1) / 2)) (2 * Real.pi)

/-- Angle theta = np.linalg.norm(rot_vec) of a rotation vector
(utils.py line 195). -/
def rotvec_theta (rv : V3) : ℝ := Real.sqrt (∑ j, rv j ^ 2)

/-- Normalised axis v = np.nan_to_num(rot_vec / theta) (utils.py lines
196-198).  The only NaN entries of rot_vec / theta are the 0 / 0 ones that
arise exactly when theta = 0 (then every component of rot_vec is 0), and
np.nan_to_num replaces them by 0; Lean's convention x / 0 = 0 yields the
same guarded value, so plain division is the faithful embedding. -/
def rotvec_axis (rv : V3) : V3 := fun j => rv j / rotvec_theta rv

/-- np.cross(a, b) on single 3-vectors. -/
def cross3 (a b : V3) : V3 :=
  ![a 1 * b 2 - a 2 * b 1, a 2 * b 0 - a 0 * b 2, a 0 * b 1 - a 1 * b 0]

/-- rotate_points_with_rotvec (utils.py lines 190-203) for one rotation
vector broadcast over all points, as in every call site (rot_vecs has one
row there): Rodrigues' formula
cos theta * p + sin theta * (v x p) + (p . v) * (1 - cos theta) * v. -/
def rotate_points_with_rotvec {n : ℕ} (points : Fin n → V3) (rv : V3) :
    Fin n → V3 :=
  fun i j =>
    Real.cos (rotvec_theta rv) * points i j
      + Real.sin (rotvec_theta rv) * cross3 (rotvec_axis rv) (points i) j
      + (∑ l, points i l * rotvec_axis rv l) * (1 - Real.cos (rotvec_theta rv))
          * rotvec_axis rv j

/-- Fitting residual block of one body, y - rotate_points_with_rotvec(x, rv)
(utils.py lines 211-212 and 227-228). -/
def fitRes {n : ℕ} (x y : Fin n → V3) (rv : V3) : Fin n → V3 :=
  fun i => y i - rotate_points_with_rotvec x rv i

/-- Joint consistency residual block of objective_eval (utils.py line 213):
rotate_points_with_rotvec(joints, rotvec0) - rotate_points_with_rotvec(joints, rotvec1). -/
def jointRes {k : ℕ} (joints : Fin k → V3) (rv0 rv1 : V3) : Fin k → V3 :=
  fun i => rotate_points_with_rotvec joints rv0 i
    - rotate_points_with_rotvec joints rv1 i

/-- Rotation-vector difference block res_R = rotvec0 - rotvec1 of
objective_eval_r (utils.py line 229), a single (1, 3) row. -/
def rotvecRes (rv0 rv1 : V3) : Fin 1 → V3 := fun _ => rv0 - rv1

/-- Division of a residual block by its own number of rows. -/
def divByCount {m : ℕ} (block : Fin m → V3) : Fin m → V3 :=
  fun i j => block i j / m

/-- objective_eval (utils.py lines 206-218), the revolute residual.  The
raveled output is kept at row granularity (a list of 3-vectors, concatenated
in the source order res0, res1, res_joint); when isweight, res0 is divided
by x0.shape[0], res1 by x1.shape[0] and res_joint by joints.shape[0]. -/
def objective_eval {n0 n1 k : ℕ} (rv0 rv1 : V3) (x0 y0 : Fin n0 → V3)
    (x1 y1 : Fin n1 → V3) (joints : Fin k → V3) (isweight : Bool) : List V3 :=
  if isweight then
    List.ofFn (fun i j => fitRes x0 y0 rv0 i j / (n0 : ℝ))
      ++ List.ofFn (fun i j => fitRes x1 y1 rv1 i j / (n1 : ℝ))
      ++ List.ofFn (fun i j => jointRes joints rv0 rv1 i j / (k : ℝ))
  else
    List.ofFn (fitRes x0 y0 rv0) ++ List.ofFn (fitRes x1 y1 rv1)
      ++ List.ofFn (jointRes joints rv0 rv1)

/-- objective_eval_r (utils.py lines 222-233), the prismatic residual: the
joint block is res_R = rotvec0 - rotvec1, and when isweight only res0 and
res1 are divided (no division is applied to res_R in the source). -/
def objective_eval_r {n0 n1 k : ℕ} (rv0 rv1 : V3) (x0 y0 : Fin n0 → V3)
    (x1 y1 : Fin n1 → V3) (joints : Fin k → V3) (isweight : Bool) : List V3 :=
  if isweight then
    List.ofFn (fun i j => fitRes x0 y0 rv0 i j / (n0 : ℝ))
      ++ List.ofFn (fun i j => fitRes x1 y1 rv1 i j / (n1 : ℝ))
      ++ List.ofFn (rotvecRes rv0 rv1)
  else
    List.ofFn (fitRes x0 y0 rv0) ++ List.ofFn (fitRes x1 y1 rv1)
      ++ List.ofFn (rotvecRes rv0 rv1)

/-- np.linspace(0, 1, num=m) as a function of the index. -/
def linspace01 (m : ℕ) : Fin m → ℝ := fun i => (i : ℝ) / ((m : ℝ) - 1)

/-- Dropping the leading entry, the [1:] slice. -/
def dropHead {m : ℕ} {α : Type} (f : Fin (m + 1) → α) : Fin m → α :=
  fun i => f i.succ

/-- np.ones_like on a vector. -/
def ones_like {m : ℕ} (f : Fin m → ℝ) : Fin m → ℝ := fun _ => 1

/-- joint_points0 (utils.py line 119):
np.ones_like(np.linspace(0, 1, num=min(n0, n1) + 1)[1:].reshape(-1, 1))
  * joint_direction.reshape(1, 3), where n0 and n1 are the sampled source
sizes of the two bodies. -/
def joint_points0 (n0 n1 : ℕ) (d : V3) : Fin (min n0 n1) → V3 :=
  fun i j => ones_like (dropHead (linspace01 (min n0 n1 + 1))) i * d j

/-- joint_points1 (utils.py line 120), computed by the same expression as
joint_points0. -/
def joint_points1 (n0 n1 : ℕ) (d : V3) : Fin (min n0 n1) → V3 :=
  fun i j => ones_like (dropHead (linspace01 (min n0 n1 + 1))) i * d j

/-- Modelled from the numpy contract of np.random.randint(n, size=3) used at
utils.py lines 92-93: three independent draws, each uniform on [0, n).  The
support is the whole triple space; the source imposes no distinctness
constraint on the drawn indices. -/
def randint_triples (n : ℕ) : Finset (Fin 3 → Fin n) := Finset.univ

/-- Modelled from the numpy contract of np.random.randint(n, size=3): the
probability of drawing one particular triple under three independent uniform
draws on [0, n). -/
def triple_prob (n : ℕ) : ℚ := 1 / (n : ℚ) ^ 3

/-- Fancy indexing dataset['source0'][sample_idx0, :] (utils.py line 98). -/
def sample_points {n : ℕ} {α : Type} (src : Fin n → α) (idx : Fin 3 → Fin n) :
    Fin 3 → α := fun i => src (idx i)

/-- The correspondence dataset consumed by the estimator and the verifier
(fields source0, target0, source1, target1, joint_direction of the dataset
dict; the counts nsource0, nsource1 are the type indices n0, n1). -/
structure JointDataset (n0 n1 : ℕ) where
  source0 : Fin n0 → V3
  target0 : Fin n0 → V3
  source1 : Fin n1 → V3
  target1 : Fin n1 → V3
  joint_direction : V3

/-- The model dict produced by joint_transformation_estimator
(utils.py lines 169-175). -/
structure JointModel where
  rotation0 : M3
  scale0 : ℝ
  translation0 : V3
  rotation1 : M3
  scale1 : ℝ
  translation1 : V3

/-- res0 = target0.T - scale0 * (rotation0 @ source0.T)
- translation0.reshape(3, 1) (utils.py line 182), a (3, n0) matrix. -/
def resid0 {n0 n1 : ℕ} (d : JointDataset n0 n1) (m : JointModel) :
    Matrix (Fin 3) (Fin n0) ℝ :=
  Matrix.of fun j i =>
    d.target0 i j - m.scale0 * (∑ k, m.rotation0 j k * d.source0 i k)
      - m.translation0 j

/-- res1 = target1.T - scale1 * (rotation1 @ source1.T)
- translation1.reshape(3, 1) (utils.py line 184), a (3, n1) matrix. -/
def resid1 {n0 n1 : ℕ} (d : JointDataset n0 n1) (m : JointModel) :
    Matrix (Fin 3) (Fin n1) ℝ :=
  Matrix.of fun j i =>
    d.target1 i j - m.scale1 * (∑ k, m.rotation1 j k * d.source1 i k)
      - m.translation1 j

/-- inliers0 = np.sqrt(np.sum(res0**2, 0)) < inlier_th (utils.py line 183),
as the set of flagged indices of body 0. -/
def inlier_set0 {n0 n1 : ℕ} (d : JointDataset n0 n1) (m : JointModel)
    (th : ℝ) : Finset (Fin n0) :=
  Finset.univ.filter fun i => Real.sqrt (∑ j, resid0 d m j i ^ 2) < th

/-- inliers1 = np.sqrt(np.sum(res1**2, 0)) < inlier_th (utils.py line 185),
as the set of flagged indices of body 1. -/
def inlier_set1 {n0 n1 : ℕ} (d : JointDataset n0 n1) (m : JointModel)
    (th : ℝ) : Finset (Fin n1) :=
  Finset.univ.filter fun i => Real.sqrt (∑ j, resid1 d m j i ^ 2) < th

/-- joint_transformation_verifier (utils.py lines 179-187).  The score is
(np.sum(inliers0) / res0.shape[0] + np.sum(inliers1) / res1.shape[0]) / 2,
where res0.shape[0] and res1.shape[0] are the row counts of the transposed
residual matrices, i.e. Fintype.card (Fin 3) = 3, not the point counts. -/
def joint_transformation_verifier {n0 n1 : ℕ} (d : JointDataset n0 n1)
    (m : JointModel) (inlier_th : ℝ) : ℝ × Finset (Fin n0) × Finset (Fin n1) :=
  (((inlier_set0 d m inlier_th).card / (Fintype.card (Fin 3) : ℝ)
      + (inlier_set1 d m inlier_th).card / (Fintype.card (Fin 3) : ℝ)) / 2,
    inlier_set0 d m inlier_th, inlier_set1 d m inlier_th)

/-- The mutable loop state of ransac (utils.py lines 75-77): best_model,
best_score (initialised to -np.inf, modelled by the bottom of WithBot ℚ)
and best_inliers. -/
structure RansacState (M I : Type) where
  bestModel : Option M
  bestScore : WithBot ℚ
  bestInliers : Option I

/-- One iteration of the ransac loop body (utils.py lines 79-83): score the
current model and, when cur_score > best_score, store the current model and
inlier mask.  As in the source, best_score is not assigned in the branch. -/
def ransac_step {M I : Type} (model_verifier : M → ℚ × I)
    (st : RansacState M I) (cur_model : M) : RansacState M I :=
  if ((model_verifier cur_model).1 : WithBot ℚ) > st.bestScore then
    ⟨some cur_model, st.bestScore, some (model_verifier cur_model).2⟩
  else st

/-- ransac (utils.py lines 74-85).  The random minimal-sample estimator is
modelled as a function of the iteration index (its random stream); refit is
the final model_estimator(dataset, best_inliers) call of line 84; verifier
scores are the rational count ratios the verifier produces. -/
def ransac {M I : Type} (model_estimator : ℕ → M) (refit : Option I → M)
    (model_verifier : M → ℚ × I) (niter : ℕ) : M × Option I :=
  let final := (List.range niter).foldl
    (fun st i => ransac_step model_verifier st (model_estimator i))
    ⟨none, ⊥, none⟩
  (refit final.bestInliers, final.bestInliers)

/-- A two-iteration model stream for exercising the ransac loop: iteration i
produces model i. -/
def exEstimator : ℕ → ℕ := fun i => i

/-- A verifier giving model 0 the score 1 with inlier mask 100, and every
other model the score 0 with inlier mask 101. -/
def exVerifier : ℕ → ℚ × ℕ := fun m => if m = 0 then (1, 100) else (0, 101)

/-- A refit stub for the final estimator call of ransac. -/
def exRefit : Option ℕ → ℕ := fun _ => 99

/-- A dataset of 6 correspondences per body, all points at the origin. -/
def exDataset : JointDataset 6 6 :=
  ⟨fun _ _ => 0, fun _ _ => 0, fun _ _ => 0, fun _ _ => 0, fun _ => 0⟩

/-- The identity model (rotation 1, scale 1, translation 0 on both bodies),
which reproduces every correspondence of exDataset exactly. -/
def exModel : JointModel := ⟨1, 1, fun _ => 0, 1, 1, fun _ => 0⟩

/-- C5: for every point set p, rotating by the zero rotation vector [0, 0, 0]
returns p unchanged: the division of the rotation vector by its zero norm is
guarded (the resulting NaN axis is replaced by 0), so the zero-angle case is
a total, well-defined identity rotation and never propagates NaN. -/
theorem rotate_points_with_rotvec_zero_id {n : ℕ} (p : Fin n → V3) :
    rotate_points_with_rotvec p ![0, 0, 0] = p := by
  have htheta : rotvec_theta ![0, 0, 0] = 0 := by
    simp [rotvec_theta, Fin.sum_univ_three]
  have haxis : ∀ j, rotvec_axis ![0, 0, 0] j = 0 := by
    intro j
    fin_cases j <;> simp [rotvec_axis]
  funext i j
  simp [rotate_points_with_rotvec, htheta, haxis]

/-- C4: with the weighted flag set, the output of the revolute residual
objective_eval is the concatenation of the body-0 block, the body-1 block
and the joint-consistency block, each divided by its own block's row count;
the same holds for the prismatic residual objective_eval_r, whose
joint-consistency block rotvec0 - rotvec1 has a single row (so dividing it
by its own count is the identity). -/
theorem objective_eval_weighted_blockwise {n0 n1 k : ℕ} (rv0 rv1 : V3)
    (x0 y0 : Fin n0 → V3) (x1 y1 : Fin n1 → V3) (joints : Fin k → V3) :
    objective_eval rv0 rv1 x0 y0 x1 y1 joints true
        = List.ofFn (divByCount (fitRes x0 y0 rv0))
          ++ List.ofFn (divByCount (fitRes x1 y1 rv1))
          ++ List.ofFn (divByCount (jointRes joints rv0 rv1))
      ∧ objective_eval_r rv0 rv1 x0 y0 x1 y1 joints true
        = List.ofFn (divByCount (fitRes x0 y0 rv0))
          ++ List.ofFn (divByCount (fitRes x1 y1 rv1))
          ++ List.ofFn (divByCount (rotvecRes rv0 rv1)) := by
  constructor
  · rfl
  · have h : divByCount (rotvecRes rv0 rv1) = rotvecRes rv0 rv1 := by
      funext i j
      simp [divByCount]
    rw [h]
    rfl

/-- Counterexample to C6 as stated: with all source and target points
coincident at the origin the recovered scale is 0, not strictly positive. -/
theorem scale_pts_coincident_not_pos :
    ¬ 0 < scale_pts (fun (_ : Fin 3) (_ : Fin 3) => (0 : ℝ)) (fun _ _ => 0) := by
  have hp : ∀ p : Fin 3 × Fin 3,
      pdist_flat (fun (_ : Fin 3) (_ : Fin 3) => (0 : ℝ)) p = 0 := by
    intro p
    simp [pdist_flat]
  have h : scale_pts (fun (_ : Fin 3) (_ : Fin 3) => (0 : ℝ)) (fun _ _ => 0) = 0 := by
    simp [scale_pts, hp]
  rw [h]
  exact lt_irrefl 0

/-- C6 amended: for every pair of same-length point sets, scale_pts returns a
nonnegative scalar (it is 0 when all pairwise distances of the source or of
the target vanish), and the division is protected by the additive floor
1e-6, which bounds the denominator below. -/
theorem scale_pts_nonneg_with_floor {n : ℕ} (source target : Fin n → V3) :
    0 ≤ scale_pts source target ∧
      1 / 1000000
        ≤ (∑ p : Fin n × Fin n, pdist_flat source p * pdist_flat source p)
            + 1 / 1000000 := by
  have hnum : (0 : ℝ)
      ≤ ∑ p : Fin n × Fin n, pdist_flat source p * pdist_flat target p :=
    Finset.sum_nonneg fun p _ =>
      mul_nonneg (Real.sqrt_nonneg _) (Real.sqrt_nonneg _)
  have hden : (0 : ℝ)
      ≤ ∑ p : Fin n × Fin n, pdist_flat source p * pdist_flat source p :=
    Finset.sum_nonneg fun p _ =>
      mul_nonneg (Real.sqrt_nonneg _) (Real.sqrt_nonneg _)
  constructor
  · exact div_nonneg hnum (by linarith)
  · linarith

/-- C7: the model verifier is deterministic: two evaluations on the same
dataset, model and threshold return the same score and the same inlier
masks.  The embedded verifier is a pure function of its arguments (the
source body is numpy arithmetic with no randomness or ambient state). -/
theorem joint_transformation_verifier_deterministic {n0 n1 : ℕ}
    (d : JointDataset n0 n1) (m : JointModel) (th : ℝ) :
    joint_transformation_verifier d m th = joint_transformation_verifier d m th :=
  rfl

/-- C10: the joint-axis point sets passed to the residual are K identical
copies of the joint direction with K = min of the two bodies' sample sizes,
the two bodies' joint point sets are equal, and consequently every row of
the revolute joint-consistency residual block is the same 3-vector. -/
theorem joint_points_constant_and_shared (n0 n1 : ℕ) (d : V3) :
    (∀ i : Fin (min n0 n1), joint_points0 n0 n1 d i = d)
      ∧ joint_points0 n0 n1 d = joint_points1 n0 n1 d
      ∧ ∀ (rv0 rv1 : V3) (i i' : Fin (min n0 n1)),
          jointRes (joint_points0 n0 n1 d) rv0 rv1 i
            = jointRes (joint_points0 n0 n1 d) rv0 rv1 i' := by
  have h0 : ∀ i : Fin (min n0 n1), joint_points0 n0 n1 d i = d := by
    intro i
    funext j
    simp [joint_points0, ones_like]
  have h1 : ∀ i : Fin (min n0 n1), joint_points1 n0 n1 d i = d := by
    intro i
    funext j
    simp [joint_points1, ones_like]
  refine ⟨h0, ?_, ?_⟩
  · funext i
    rw [h0 i, h1 i]
  · intro rv0 rv1 i i'
    funext j
    simp only [jointRes, rotate_points_with_rotvec, Pi.sub_apply, h0]

/-- C8: for every proper rotation matrix R (orthonormal with determinant
+1), the rotation-difference metric of R with itself is 0:
arccos((trace(R @ R.T) - 1) / 2) mod 2 pi = 0. -/
theorem rot_diff_rad_self_eq_zero (R : M3) (horth : R * R.transpose = 1)
    (hdet : R.det = 1) : rot_diff_rad R R = 0 := by
  have htr : Matrix.trace (R * R.transpose) = (3 : ℝ) := by
    rw [horth, Matrix.trace_one]
    simp
  unfold rot_diff_rad npMod
  rw [htr]
  norm_num [Real.arccos_one]

/-- Witness for C8 at the identity rotation. -/
theorem rot_diff_rad_self_eq_zero_witness : rot_diff_rad 1 1 = 0 :=
  rot_diff_rad_self_eq_zero 1 (by simp) (by simp)

/-- C9: when no inlier set is supplied the estimator draws its 3 sample
indices per body with replacement: the support of the draw is the full
triple space, so some draw (of positive probability under the uniform
contract) has non-distinct indices, and on it the selected minimal sample
collapses to a single repeated point whatever the dataset contains. -/
theorem randint_sample_can_repeat {n : ℕ} (h : 0 < n) {α : Type}
    (src : Fin n → α) :
    ∃ idx ∈ randint_triples n, ¬ Function.Injective idx ∧ 0 < triple_prob n ∧
      ∀ i i' : Fin 3, sample_points src idx i = sample_points src idx i' := by
  refine ⟨fun _ => ⟨0, h⟩, Finset.mem_univ _, ?_, ?_, fun i i' => rfl⟩
  · intro hinj
    have h01 : (0 : Fin 3) = 1 := hinj rfl
    exact absurd h01 (by decide)
  · unfold triple_prob
    have hn : (0 : ℚ) < (n : ℚ) := by exact_mod_cast h
    exact div_pos one_pos (pow_pos hn 3)

/-- Witness for C9 with three points per body. -/
theorem randint_sample_can_repeat_witness :
    0 < 3 ∧ ∃ idx ∈ randint_triples 3, ¬ Function.Injective idx ∧
      0 < triple_prob 3 ∧
      ∀ i i' : Fin 3, sample_points (fun x : Fin 3 => x) idx i
        = sample_points (fun x : Fin 3 => x) idx i' :=
  ⟨by decide, randint_sample_can_repeat (by decide) (fun x : Fin 3 => x)⟩

/-- C1 fails on the code: ransac never assigns best_score, so the comparison
is always against -inf and every iteration with a finite score overwrites
the stored best pair.  With two iterations whose models score 1 (mask 100)
and then 0 (mask 101), the driver returns the mask of the later, strictly
lower-scoring model instead of the mask of the highest-scoring one. -/
theorem ransac_keeps_last_scoring_model :
    (ransac exEstimator exRefit exVerifier 2).2 = some (exVerifier (exEstimator 1)).2
      ∧ (exVerifier (exEstimator 0)).1 > (exVerifier (exEstimator 1)).1
      ∧ (exVerifier (exEstimator 1)).2 ≠ (exVerifier (exEstimator 0)).2 := by
  decide

/-- C2 fails on the code: the verifier divides each body's inlier count by
res.shape[0] = 3, the row count of the transposed residual matrix, instead
of the body's point count.  On a 6-point-per-body dataset that the model
reproduces exactly (all residuals 0 < threshold 1) the score is
(6/3 + 6/3) / 2 = 2, not the inlier fraction 1, and lies outside [0, 1]. -/
theorem verifier_score_two_on_exact_fit :
    (joint_transformation_verifier exDataset exModel 1).1 = 2 := by
  have hres0 : ∀ (j : Fin 3) (i : Fin 6), resid0 exDataset exModel j i = 0 := by
    intro j i
    simp [resid0, exDataset, exModel]
  have hres1 : ∀ (j : Fin 3) (i : Fin 6), resid1 exDataset exModel j i = 0 := by
    intro j i
    simp [resid1, exDataset, exModel]
  have hset0 : inlier_set0 exDataset exModel 1 = Finset.univ := by
    unfold inlier_set0
    refine Finset.filter_true_of_mem ?_
    intro i _
    simp [hres0]
  have hset1 : inlier_set1 exDataset exModel 1 = Finset.univ := by
    unfold inlier_set1
    refine Finset.filter_true_of_mem ?_
    intro i _
    simp [hres1]
  unfold joint_transformation_verifier
  rw [hset0, hset1]
  simp only [Finset.card_univ, Fintype.card_fin]
  norm_num

theorem mul_orthogonal {A B : M3} (hA : A * A.transpose = 1)
    (hB : B * B.transpose = 1) : (A * B) * (A * B).transpose = 1 := by
  rw [Matrix.transpose_mul, mul_assoc, ← mul_assoc B B.transpose, hB, one_mul,
    hA]

theorem negLastCol_eq (U : M3) :
    negLastCol U = U * Matrix.diagonal flipSign := by
  ext i j
  rw [Matrix.mul_diagonal]
  by_cases h : j = 2 <;> simp [negLastCol, flipSign, h]

theorem flipSign_mul_self : (fun j => flipSign j * flipSign j) = fun _ => (1 : ℝ) := by
  funext j
  by_cases h : j = 2 <;> simp [flipSign, h]

theorem diagonal_flipSign_orth :
    Matrix.diagonal flipSign * (Matrix.diagonal flipSign).transpose = 1 := by
  rw [Matrix.diagonal_transpose, Matrix.diagonal_mul_diagonal,
    flipSign_mul_self, Matrix.diagonal_one]

theorem diagonal_flipSign_det : (Matrix.diagonal flipSign).det = -1 := by
  have h0 : flipSign 0 = 1 := rfl
  have h1 : flipSign 1 = 1 := rfl
  have h2 : flipSign 2 = -1 := rfl
  rw [Matrix.det_diagonal, Fin.prod_univ_three, h0, h1, h2]
  norm_num

theorem orth_det_pm_one {U : M3} (hU : U * U.transpose = 1) :
    U.det = 1 ∨ U.det = -1 := by
  have h := congrArg Matrix.det hU
  rw [Matrix.det_mul, Matrix.det_transpose, Matrix.det_one] at h
  exact mul_self_eq_one_iff.mp h

/-- C3: for every pair of same-length point sets, whenever numpy's SVD of
the cross covariance of the centered sets returns factors with orthogonal U
and Vh (its contract), the rotation formed by rotate_pts is proper:
det(R) = +1 and R @ R.T = I.  This includes the reflection case
det(U) * det(Vh) < 0, where the last column of U is negated first. -/
theorem rotate_pts_svd_proper {n : ℕ} (source target : Fin n → V3) (U : M3)
    (D : Fin 3 → ℝ) (Vh : M3)
    (hM : crossCov source target = U * Matrix.diagonal D * Vh)
    (hU : U * U.transpose = 1) (hV : Vh * Vh.transpose = 1) :
    (rotate_pts_svd U D Vh).det = 1
      ∧ rotate_pts_svd U D Vh * (rotate_pts_svd U D Vh).transpose = 1 := by
  have hUd := orth_det_pm_one hU
  have hVd := orth_det_pm_one hV
  unfold rotate_pts_svd
  by_cases hd : U.det * Vh.det < 0
  · rw [if_pos hd]
    constructor
    · have hneg : (negLastCol U).det = -U.det := by
        rw [negLastCol_eq, Matrix.det_mul, diagonal_flipSign_det]
        ring
      rw [Matrix.det_mul, hneg]
      rcases hUd with h1 | h1 <;> rcases hVd with h2 | h2 <;>
        rw [h1, h2] at hd ⊢ <;> norm_num at hd ⊢
    · have hA : negLastCol U * (negLastCol U).transpose = 1 := by
        rw [negLastCol_eq]
        exact mul_orthogonal hU diagonal_flipSign_orth
      exact mul_orthogonal hA hV
  · rw [if_neg hd]
    constructor
    · rw [Matrix.det_mul]
      rcases hUd with h1 | h1 <;> rcases hVd with h2 | h2 <;>
        rw [h1, h2] at hd ⊢ <;> norm_num at hd ⊢
    · exact mul_orthogonal hU hV

/-- Witness for C3: the all-zero three-point configuration, whose cross
covariance is the zero matrix with the SVD factors U = 1, D = 0, Vh = 1. -/
theorem rotate_pts_svd_proper_witness :
    (rotate_pts_svd 1 (fun _ => (0 : ℝ)) 1).det = 1
      ∧ rotate_pts_svd 1 (fun _ => (0 : ℝ)) 1
          * (rotate_pts_svd 1 (fun _ => (0 : ℝ)) 1).transpose = 1 :=
  rotate_pts_svd_proper (fun (_ : Fin 3) (_ : Fin 3) => (0 : ℝ)) (fun _ _ => 0)
    1 (fun _ => 0) 1
    (by
      ext a b
      simp [crossCov, center, Matrix.diagonal])
    (by simp) (by simp)

end

end RfVision
